import Mathlib

/-!
Shallow embedding of the gru file resource (src/resource/file.go).

The filesystem is modelled as a map from paths to stat outcomes.  A path
either does not exist (os.Stat returns an IsNotExist error), fails to stat
for another reason (e.g. permission denied on a parent directory), or
holds a node.  A node carries the Go os.FileMode bits (a Nat; the
permission bits are the low 9 bits, so FileMode.Perm() is modelled as
mod 512), the resolved owner and group names, a flag for whether the
uid/gid-to-name resolution of the actual owner fails (fileOwner's error
path), an abstract content digest standing for the MD5 checksum, and,
for directories, whether the directory is empty (os.Remove succeeds only
on empty directories).
-/

/-- Resource states.  The source uses the string constants StateUnknown,
StatePresent and StateAbsent; modelled as an enumeration. -/
inductive ResourceState where
  | unknown
  | present
  | absent
deriving DecidableEq, Repr

/-- Modelled from the spec: the State record returned by Evaluate
(ConvergenceResult in the spec) is declared outside src/; its fields
Current, Want and Update are pinned by the struct literal in
FileResource.Evaluate. -/
structure State where
  current : ResourceState
  want : ResourceState
  update : Bool
deriving DecidableEq, Repr

/-- Modelled from the spec: the Options bundle passed to
Evaluate/Create/Update/Delete is declared outside src/; the spec names a
"dry run" style flag among its recognized options. -/
structure Options where
  dryRun : Bool
deriving DecidableEq, Repr

/-- Errors surfaced by the modelled OS and library calls. -/
inductive GoError where
  /-- os error for a path that does not exist (os.IsNotExist). -/
  | notFound
  /-- the "path exists, but is not a file" error built in Evaluate. -/
  | typeMismatch (path : String)
  /-- fileOwner failed to resolve the actual uid/gid to names. -/
  | lookupFailure
  /-- os.Remove on a non-empty directory. -/
  | notEmpty
  /-- any other OS-level failure (e.g. permission denied). -/
  | ioError
deriving DecidableEq, Repr

/-- One node of the modelled filesystem. -/
structure FsNode where
  isDir : Bool
  /-- the os.FileMode bits; Perm() is mode % 512. -/
  mode : Nat
  /-- resolved owner user name of the node. -/
  owner : String
  /-- resolved group name of the node. -/
  group : String
  /-- true when fileOwner cannot resolve the node's uid/gid to names. -/
  lookupErr : Bool
  /-- abstract content digest, standing for the MD5 checksum. -/
  digest : Nat
  /-- whether a directory node is empty (meaningful only when isDir). -/
  dirEmpty : Bool
deriving DecidableEq, Repr

/-- Outcome of os.Stat on one path. -/
inductive StatResult where
  | notExist
  | otherErr
  | found (n : FsNode)
deriving DecidableEq, Repr

/-- The filesystem: each path has a stat outcome. -/
def Fs : Type := String → StatResult

/-- Replace the node stored at one path. -/
def setNode (fs : Fs) (p : String) (n : FsNode) : Fs :=
  fun q => if q = p then .found n else fs q

/-- Remove the entry stored at one path. -/
def removeNode (fs : Fs) (p : String) : Fs :=
  fun q => if q = p then .notExist else fs q

/-- The os.FileMode(m) conversion of a Go int: a uint32 conversion,
modelled as mod 2 ^ 32. -/
def goFileMode (m : Nat) : Nat :=
  m % 2 ^ 32

/-- The mode bits after os.Chmod with a requested FileMode: the low 9
permission bits are replaced, the type bits are kept. -/
def chmodMode (old req : Nat) : Nat :=
  old / 512 * 512 + req % 512

/-- Digest of empty content: os.Create truncates an existing file. -/
def emptyDigest : Nat := 0

/-- os.Chmod: sets the permission bits of the node at the path. -/
def osChmod (fs : Fs) (p : String) (req : Nat) : Fs × Option GoError :=
  match fs p with
  | .notExist => (fs, some .notFound)
  | .otherErr => (fs, some .ioError)
  | .found n => (setNode fs p { n with mode := chmodMode n.mode req }, none)

/-- setFileOwner: resolves the declared owner and group names and chowns
the path; modelled as setting the resolved names on the node. -/
def setFileOwner (fs : Fs) (p own grp : String) : Fs × Option GoError :=
  match fs p with
  | .notExist => (fs, some .notFound)
  | .otherErr => (fs, some .ioError)
  | .found n => (setNode fs p { n with owner := own, group := grp }, none)

/-- os.Remove: unlinks a file or an empty directory, errors otherwise. -/
def osRemove (fs : Fs) (p : String) : Fs × Option GoError :=
  match fs p with
  | .notExist => (fs, some .notFound)
  | .otherErr => (fs, some .ioError)
  | .found n =>
    if n.isDir = true ∧ n.dirEmpty = false then (fs, some .notEmpty)
    else (removeNode fs p, none)

/-- Ambient process identity used by NewFileResource (user.Current and
user.LookupGroupId) and by os.Create for the attributes of a new file. -/
structure Proc where
  user : String
  group : String
  /-- mode bits given to a newly created file (0666 masked by the umask). -/
  createMode : Nat
deriving DecidableEq, Repr

/-- os.Create: creates the file with the process identity and create
mode, or truncates an existing regular file; opening a directory for
writing fails. -/
def osCreate (pr : Proc) (fs : Fs) (p : String) : Fs × Option GoError :=
  match fs p with
  | .notExist =>
    (setNode fs p (FsNode.mk false pr.createMode pr.user pr.group false emptyDigest true), none)
  | .otherErr => (fs, some .ioError)
  | .found n =>
    if n.isDir = true then (fs, some .ioError)
    else (setNode fs p { n with digest := emptyDigest }, none)

/-- utils.FileUtil.Md5: reads the file at the path and returns its
content digest; reading a missing path or a directory fails. -/
def fileMd5 (fs : Fs) (p : String) : Except GoError Nat :=
  match fs p with
  | .notExist => .error .notFound
  | .otherErr => .error .ioError
  | .found n => if n.isDir = true then .error .ioError else .ok n.digest

/-- filepath.Join of three components (path cleaning elided; all inputs
used here are already clean). -/
def joinPath (a b c : String) : String :=
  a ++ "/" ++ b ++ "/" ++ c

/-- The file resource.  The Go struct embeds BaseResource (Title, Type,
State) and carries Path, Mode, Owner, Group and Source; the fields are
flattened here as Go's hcl ",squash" embedding does. -/
structure FileResource where
  title : String
  /-- BaseResource.Type (Go field named Type; type is a Lean keyword). -/
  rtype : String
  /-- BaseResource.State: the desired (Want) state. -/
  state : ResourceState
  path : String
  /-- declared permission bits (a Go int; conversion to os.FileMode is a
  uint32 conversion, modelled as mod 2 ^ 32). -/
  mode : Nat
  owner : String
  group : String
  source : String
deriving DecidableEq, Repr

/-- The progress messages written by Printf in Create/Update/Delete. -/
inductive Msg where
  | creatingFile
  | removingFile
  | settingPermissions (mode : Nat)
  | settingOwner (own grp : String)
deriving DecidableEq, Repr

/-- Result of a mutating call: the filesystem afterwards, the progress
messages written, and the returned error. -/
structure MutResult where
  fs : Fs
  msgs : List Msg
  err : Option GoError

/-- BaseFileResource.contentChanged: when Source is unset, no change;
otherwise compare the MD5 digest of siteDir/data/Source against the
digest of the destination path. -/
def contentChanged (fr : FileResource) (siteDir : String) (fs : Fs) : Except GoError Bool :=
  if fr.source = "" then .ok false
  else
    match fileMd5 fs (joinPath siteDir "data" fr.source) with
    | .error e => .error e
    | .ok srcMd5 =>
      match fileMd5 fs fr.path with
      | .error e => .error e
      | .ok dstMd5 => .ok (decide (srcMd5 ≠ dstMd5))

/-- FileResource.Evaluate.  Returns none where the Go code faults: when
os.Stat fails with an error that is not IsNotExist, the code falls
through the IsNotExist check and calls fi.IsDir() on the nil FileInfo,
a nil-pointer dereference panic. -/
def evaluate (fr : FileResource) (fs : Fs) : Option (State × Option GoError) :=
  match fs fr.path with
  | .notExist => some (State.mk .absent fr.state false, none)
  | .otherErr => none
  | .found n =>
    let st1 : State := State.mk .present fr.state false
    if n.isDir = true then some (st1, some (.typeMismatch fr.path))
    else
      let st2 := if n.mode % 512 ≠ goFileMode fr.mode then { st1 with update := true } else st1
      if n.lookupErr = true then some (st2, some .lookupFailure)
      else
        let st3 :=
          if fr.owner ≠ n.owner ∨ fr.group ≠ n.group then { st2 with update := true } else st2
        some (st3, none)

/-- FileResource.Create: print "creating file", os.Create, setFileOwner,
os.Chmod, stopping at the first error.  The opts argument is never read
by the source. -/
def fileCreate (pr : Proc) (fr : FileResource) (fs : Fs) (opts : Options) : MutResult :=
  match osCreate pr fs fr.path with
  | (fs1, some e) => MutResult.mk fs1 [Msg.creatingFile] (some e)
  | (fs1, none) =>
    match setFileOwner fs1 fr.path fr.owner fr.group with
    | (fs2, some e) => MutResult.mk fs2 [Msg.creatingFile] (some e)
    | (fs2, none) =>
      match osChmod fs2 fr.path fr.mode with
      | (fs3, e) => MutResult.mk fs3 [Msg.creatingFile] e

/-- FileResource.Delete: print "removing file", then os.Remove
unconditionally.  The opts argument is never read by the source. -/
def fileDelete (fr : FileResource) (fs : Fs) (opts : Options) : MutResult :=
  match osRemove fs fr.path with
  | (fs1, e) => MutResult.mk fs1 [Msg.removingFile] e

/-- The ownership phase of FileResource.Update: fileOwner(fi) on the
node seen by the initial stat, then setFileOwner when the names differ.
The Printf runs before the chown, so the message is emitted even when
the chown fails. -/
def updateOwnerPhase (fr : FileResource) (n : FsNode) (fs : Fs) (msgs : List Msg) : MutResult :=
  if n.lookupErr = true then MutResult.mk fs msgs (some .lookupFailure)
  else if fr.owner ≠ n.owner ∨ fr.group ≠ n.group then
    match setFileOwner fs fr.path fr.owner fr.group with
    | (fs2, e) => MutResult.mk fs2 (msgs ++ [Msg.settingOwner fr.owner fr.group]) e
  else MutResult.mk fs msgs none

/-- FileResource.Update: os.Stat (any stat error is returned), chmod when
the permission bits differ from the declared Mode, then the ownership
phase against the stat result.  The opts argument is never read by the
source. -/
def fileUpdate (fr : FileResource) (fs : Fs) (opts : Options) : MutResult :=
  match fs fr.path with
  | .notExist => MutResult.mk fs [] (some .notFound)
  | .otherErr => MutResult.mk fs [] (some .ioError)
  | .found n =>
    if n.mode % 512 ≠ goFileMode fr.mode then
      match osChmod fs fr.path fr.mode with
      | (fs1, some e) => MutResult.mk fs1 [Msg.settingPermissions fr.mode] (some e)
      | (fs1, none) => updateOwnerPhase fr n fs1 [Msg.settingPermissions fr.mode]
    else updateOwnerPhase fr n fs []

/-- The declaration as decoded by hcl: the schema fields of the file
resource (path, mode, owner, group, source), each either present with a
value or absent. -/
structure FileDecl where
  path : Option String
  mode : Option Nat
  owner : Option String
  group : Option String
  source : Option String
deriving DecidableEq, Repr

/-- hcl.DecodeObject into a fresh FileResource: declared fields are set,
absent fields keep the Go zero value of their type. -/
def hclDecode (d : FileDecl) : FileResource :=
  FileResource.mk "" "" .unknown (d.path.getD "") (d.mode.getD 0) (d.owner.getD "")
    (d.group.getD "") (d.source.getD "")

/-- mergo.Merge(&fr, defaults): every field of the destination that holds
the zero value of its type is filled from the source; non-zero fields
are kept.  mergo inspects only the decoded values, so it cannot tell an
absent field from a field explicitly declared as zero. -/
def mergoMerge (dst src : FileResource) : FileResource :=
  FileResource.mk
    (if dst.title = "" then src.title else dst.title)
    (if dst.rtype = "" then src.rtype else dst.rtype)
    (if dst.state = .unknown then src.state else dst.state)
    (if dst.path = "" then src.path else dst.path)
    (if dst.mode = 0 then src.mode else dst.mode)
    (if dst.owner = "" then src.owner else dst.owner)
    (if dst.group = "" then src.group else dst.group)
    (if dst.source = "" then src.source else dst.source)

/-- The resource defaults built by NewFileResource: Title and Path from
the title, Type "file", State Present, Mode 0644, Owner and Group from
the current process user. -/
def fileDefaults (title : String) (pr : Proc) : FileResource :=
  FileResource.mk title "file" .present title 0o644 pr.user pr.group ""

/-- NewFileResource: decode the declaration, then merge the decoded
object with the resource defaults via mergo. -/
def newFileResource (title : String) (d : FileDecl) (pr : Proc) : FileResource :=
  mergoMerge (hclDecode d) (fileDefaults title pr)

/-! Claim theorems. -/

/-- Claim C5: for every file resource whose path does not exist, Evaluate
returns Current = Absent, Want = the declared state, Update = false, and
no error: absence is a valid terminal determination, never an error. -/
theorem evaluate_absent_terminal (fr : FileResource) (fs : Fs)
    (h : fs fr.path = .notExist) :
    evaluate fr fs = some (State.mk .absent fr.state false, none) := by
  unfold evaluate; rw [h]

def frW5 : FileResource := FileResource.mk "t" "file" .present "/a" 0o644 "u" "g" ""

def fsW5 : Fs := fun _ => .notExist

/-- Witness for C5 at a concrete absent path. -/
theorem evaluate_absent_terminal_witness :
    fsW5 frW5.path = StatResult.notExist ∧
    evaluate frW5 fsW5 = some (State.mk .absent .present false, none) :=
  ⟨rfl, evaluate_absent_terminal frW5 fsW5 rfl⟩

/-- Claim C6: for every file resource whose path exists but is a
directory, Evaluate returns a non-nil error together with Current =
Present, and performs no attribute checks: the result is exactly the
early-return value with Update = false. -/
theorem evaluate_dir_type_mismatch (fr : FileResource) (fs : Fs) (n : FsNode)
    (h : fs fr.path = .found n) (hd : n.isDir = true) :
    evaluate fr fs =
      some (State.mk .present fr.state false, some (.typeMismatch fr.path)) := by
  unfold evaluate; rw [h]; simp [hd]

def dirNodeW6 : FsNode := FsNode.mk true 0o755 "u" "g" false 0 true

def frW6 : FileResource := FileResource.mk "t" "file" .present "/d" 0o644 "u" "g" ""

def fsW6 : Fs := fun q => if q = "/d" then .found dirNodeW6 else .notExist

/-- Witness for C6: a directory at the declared path. -/
theorem evaluate_dir_type_mismatch_witness :
    fsW6 frW6.path = .found dirNodeW6 ∧ dirNodeW6.isDir = true ∧
    evaluate frW6 fsW6 =
      some (State.mk .present .present false, some (.typeMismatch "/d")) :=
  ⟨rfl, rfl, evaluate_dir_type_mismatch frW6 fsW6 dirNodeW6 rfl rfl⟩

/-- Claim C4: Delete attempts the OS-level removal unconditionally; on an
already absent path it returns the underlying not-found OS error rather
than treating absence as a successful no-op. -/
theorem delete_absent_returns_not_found (fr : FileResource) (fs : Fs) (o : Options)
    (h : fs fr.path = .notExist) :
    fileDelete fr fs o = MutResult.mk fs [Msg.removingFile] (some .notFound) := by
  unfold fileDelete osRemove; rw [h]

def frW4 : FileResource := FileResource.mk "t" "file" .present "/gone" 0o644 "u" "g" ""

def fsW4 : Fs := fun _ => .notExist

/-- Witness for C4 at a concrete absent path. -/
theorem delete_absent_returns_not_found_witness :
    fsW4 frW4.path = StatResult.notExist ∧
    fileDelete frW4 fsW4 (Options.mk false) =
      MutResult.mk fsW4 [Msg.removingFile] (some .notFound) :=
  ⟨rfl, delete_absent_returns_not_found frW4 fsW4 (Options.mk false) rfl⟩

def frC10 : FileResource := FileResource.mk "t" "file" .present "/priv" 0o644 "u" "g" ""

def fsC10 : Fs := fun q => if q = "/priv" then .otherErr else .notExist

/-- Claim C10 (code bug): when os.Stat fails with an error that is not
IsNotExist (e.g. permission denied), Evaluate does not return a
(State, error) pair: the code falls through the IsNotExist check and
dereferences the nil FileInfo via fi.IsDir(), modelled as none. -/
theorem evaluate_faults_on_other_stat_error : evaluate frC10 fsC10 = none := rfl

/-- Claim C8: Update is a no-op at the fixed point: path exists as a
regular file, permission bits equal the declared Mode, owner and group
names equal the declared Owner and Group — then Update leaves the
filesystem untouched, writes no message, and returns no error. -/
theorem update_noop_at_fixed_point (fr : FileResource) (fs : Fs) (o : Options) (n : FsNode)
    (h : fs fr.path = .found n) (hd : n.isDir = false) (hl : n.lookupErr = false)
    (hm : n.mode % 512 = goFileMode fr.mode)
    (ho : n.owner = fr.owner) (hg : n.group = fr.group) :
    fileUpdate fr fs o = MutResult.mk fs [] none := by
  unfold fileUpdate; rw [h]
  simp [hm, updateOwnerPhase, hl, ho, hg]

def frW8 : FileResource := FileResource.mk "t" "file" .present "/f8" 0o600 "alice" "staff" ""

def nodeW8 : FsNode := FsNode.mk false 0o600 "alice" "staff" false 9 true

def fsW8 : Fs := fun q => if q = "/f8" then .found nodeW8 else .notExist

/-- Witness for C8 at a concrete fixed point. -/
theorem update_noop_at_fixed_point_witness :
    fsW8 frW8.path = .found nodeW8 ∧
    nodeW8.mode % 512 = goFileMode frW8.mode ∧
    fileUpdate frW8 fsW8 (Options.mk false) = MutResult.mk fsW8 [] none :=
  ⟨rfl, by decide,
    update_noop_at_fixed_point frW8 fsW8 (Options.mk false) nodeW8 rfl rfl rfl
      (by decide) rfl rfl⟩

theorem setNode_same (fs : Fs) (p : String) (n : FsNode) : setNode fs p n p = .found n := by
  simp [setNode]

theorem setNode_other (fs : Fs) (p q : String) (n : FsNode) (hq : q ≠ p) :
    setNode fs p n q = fs q := by
  simp [setNode, hq]

/-- Claim C7: the permission comparison is exact equality of the actual
permission bits against the declared Mode (as a FileMode): with owner
and group matching, Evaluate reports Update exactly when the bits
differ — no masking of the declared value, no at-least semantics. -/
theorem evaluate_permission_exact_equality (fr : FileResource) (fs : Fs) (n : FsNode)
    (h : fs fr.path = .found n) (hd : n.isDir = false) (hl : n.lookupErr = false)
    (ho : fr.owner = n.owner) (hg : fr.group = n.group) :
    evaluate fr fs =
      some (State.mk .present fr.state (decide (n.mode % 512 ≠ goFileMode fr.mode)), none) := by
  unfold evaluate; rw [h]
  by_cases hc : n.mode % 512 = goFileMode fr.mode <;> simp [hd, hl, ho, hg, hc]

def frW7 : FileResource := FileResource.mk "t" "file" .present "/f7" 0o640 "u" "g" ""

def nodeW7 : FsNode := FsNode.mk false 0o644 "u" "g" false 3 true

def fsW7 : Fs := fun q => if q = "/f7" then .found nodeW7 else .notExist

/-- Witness for C7: declared mode 0640 against actual 0644 yields
Update = true with matching ownership. -/
theorem evaluate_permission_exact_equality_witness :
    fsW7 frW7.path = .found nodeW7 ∧ frW7.mode = 0o640 ∧ nodeW7.mode = 0o644 ∧
    evaluate frW7 fsW7 = some (State.mk .present .present true, none) :=
  ⟨rfl, rfl, rfl,
    (evaluate_permission_exact_equality frW7 fsW7 nodeW7 rfl rfl rfl rfl rfl).trans
      (by decide)⟩

/-- Claim C1 (amended): for a path that exists as a regular file with
resolvable ownership, Evaluate returns Update = true exactly when the
permission bits or the owner/group names differ from the declaration;
the content checksum is not consulted by Evaluate. -/
theorem evaluate_update_iff_perm_or_owner_differs (fr : FileResource) (fs : Fs) (n : FsNode)
    (h : fs fr.path = .found n) (hd : n.isDir = false) (hl : n.lookupErr = false) :
    evaluate fr fs =
      some (State.mk .present fr.state
        (decide (n.mode % 512 ≠ goFileMode fr.mode) ||
          decide (fr.owner ≠ n.owner ∨ fr.group ≠ n.group)), none) := by
  unfold evaluate; rw [h]
  by_cases h1 : n.mode % 512 = goFileMode fr.mode <;>
    by_cases h2 : fr.owner ≠ n.owner ∨ fr.group ≠ n.group <;>
      simp [hd, hl, h1, h2]

def frW1 : FileResource := FileResource.mk "t" "file" .present "/f1" 0o644 "u" "g" ""

def nodeW1 : FsNode := FsNode.mk false 0o644 "x" "g" false 3 true

def fsW1 : Fs := fun q => if q = "/f1" then .found nodeW1 else .notExist

/-- Witness for the amended C1: matching permission bits but a differing
owner name yields Update = true. -/
theorem evaluate_update_iff_perm_or_owner_differs_witness :
    fsW1 frW1.path = .found nodeW1 ∧ nodeW1.owner ≠ frW1.owner ∧
    evaluate frW1 fsW1 = some (State.mk .present .present true, none) :=
  ⟨rfl, by decide,
    (evaluate_update_iff_perm_or_owner_differs frW1 fsW1 nodeW1 rfl rfl rfl).trans
      (by decide)⟩

def frC1 : FileResource := FileResource.mk "t" "file" .present "/f" 0o644 "u" "g" "src.txt"

def fsC1 : Fs := fun q =>
  if q = "/f" then .found (FsNode.mk false 0o644 "u" "g" false 1 true)
  else if q = "/site/data/src.txt" then .found (FsNode.mk false 0o644 "u" "g" false 2 true)
  else .notExist

/-- Counterexample to C1 as stated: Source is set and the content
checksum of the source file differs from the destination (contentChanged
reports true), permissions and ownership match, yet Evaluate returns
Update = false — Evaluate never consults the checksum. -/
theorem evaluate_ignores_content_checksum :
    contentChanged frC1 "/site" fsC1 = Except.ok true ∧
    evaluate frC1 fsC1 = some (State.mk .present .present false, none) :=
  ⟨rfl, by decide⟩

/-- Claim C9: Update repairs at attribute granularity and in a fixed
order: it returns no error, writes the permission message before the
ownership message and only for the attributes that differ, rewrites the
node at the path changing only the differing attributes (the digest is
kept — never a recreate), and leaves every other path untouched. -/
theorem update_attribute_granular_order (fr : FileResource) (fs : Fs) (o : Options) (n : FsNode)
    (h : fs fr.path = .found n) (hd : n.isDir = false) (hl : n.lookupErr = false) :
    (fileUpdate fr fs o).err = none ∧
    (fileUpdate fr fs o).msgs =
      ((if n.mode % 512 ≠ goFileMode fr.mode then [Msg.settingPermissions fr.mode] else []) ++
        (if fr.owner ≠ n.owner ∨ fr.group ≠ n.group then
          [Msg.settingOwner fr.owner fr.group] else [])) ∧
    (fileUpdate fr fs o).fs fr.path =
      .found { n with
        mode := if n.mode % 512 ≠ goFileMode fr.mode then chmodMode n.mode fr.mode else n.mode,
        owner := if fr.owner ≠ n.owner ∨ fr.group ≠ n.group then fr.owner else n.owner,
        group := if fr.owner ≠ n.owner ∨ fr.group ≠ n.group then fr.group else n.group } ∧
    (∀ q, q ≠ fr.path → (fileUpdate fr fs o).fs q = fs q) := by
  by_cases h1 : n.mode % 512 = goFileMode fr.mode <;>
    by_cases h2 : fr.owner ≠ n.owner ∨ fr.group ≠ n.group
  · -- perm same, owner differs
    have e : fileUpdate fr fs o =
        MutResult.mk (setNode fs fr.path { n with owner := fr.owner, group := fr.group })
          [Msg.settingOwner fr.owner fr.group] none := by
      unfold fileUpdate; rw [h]
      simp [h1, updateOwnerPhase, hl, h2, setFileOwner, h]
    refine ⟨by rw [e], by rw [e]; simp [h1, h2], by rw [e]; simp [h1, h2, setNode_same],
      fun q hq => by rw [e]; exact setNode_other fs fr.path q _ hq⟩
  · -- perm same, owner same
    have e : fileUpdate fr fs o = MutResult.mk fs [] none := by
      unfold fileUpdate; rw [h]
      simp [h1, updateOwnerPhase, hl, h2]
    refine ⟨by rw [e], by rw [e]; simp [h1, h2], ?_, fun q hq => by rw [e]⟩
    rw [e]; simp only [h1, h2]
    simp only [ne_eq, not_true_eq_false, if_false, ite_self]
    rw [h]
  · -- perm differs, owner differs
    have e : fileUpdate fr fs o =
        MutResult.mk
          (setNode (setNode fs fr.path { n with mode := chmodMode n.mode fr.mode }) fr.path
            { n with mode := chmodMode n.mode fr.mode, owner := fr.owner, group := fr.group })
          [Msg.settingPermissions fr.mode, Msg.settingOwner fr.owner fr.group] none := by
      unfold fileUpdate; rw [h]
      simp [h1, updateOwnerPhase, hl, h2, osChmod, setFileOwner, h, setNode_same]
    refine ⟨by rw [e], by rw [e]; simp [h1, h2], by rw [e]; simp [h1, h2, setNode_same],
      fun q hq => by
        rw [e]; exact (setNode_other _ _ _ _ hq).trans (setNode_other _ _ _ _ hq)⟩
  · -- perm differs, owner same
    have e : fileUpdate fr fs o =
        MutResult.mk (setNode fs fr.path { n with mode := chmodMode n.mode fr.mode })
          [Msg.settingPermissions fr.mode] none := by
      unfold fileUpdate; rw [h]
      simp [h1, updateOwnerPhase, hl, h2, osChmod, h, setNode_same]
    refine ⟨by rw [e], by rw [e]; simp [h1, h2], ?_,
      fun q hq => by rw [e]; exact setNode_other fs fr.path q _ hq⟩
    rw [e]; simp only [setNode_same, h1, h2]
    simp only [ne_eq, if_true, ite_self]
    push_neg at h2
    rw [h2.1, h2.2]
    simp [h1]

def frW9 : FileResource := FileResource.mk "t" "file" .present "/w9" 0o600 "alice" "staff" ""

def nodeW9 : FsNode := FsNode.mk false 0o644 "bob" "users" false 5 true

def fsW9 : Fs := fun q => if q = "/w9" then .found nodeW9 else .notExist

/-- Witness for C9: both permissions and ownership differ; the
permission message is written before the ownership message. -/
theorem update_attribute_granular_order_witness :
    fsW9 frW9.path = .found nodeW9 ∧
    (fileUpdate frW9 fsW9 (Options.mk false)).msgs =
      [Msg.settingPermissions 0o600, Msg.settingOwner "alice" "staff"] :=
  ⟨rfl,
    ((update_attribute_granular_order frW9 fsW9 (Options.mk false) nodeW9
      rfl rfl rfl).2.1).trans (by decide)⟩

def nodeC2 : FsNode := FsNode.mk false 0o644 "u" "g" false 7 true

def frC2 : FileResource := FileResource.mk "t" "file" .present "/f2" 0o644 "u" "g" ""

def fsC2 : Fs := fun q => if q = "/f2" then .found nodeC2 else .notExist

/-- Counterexample to C2 as stated: with the dry-run flag set, Delete on
an existing regular file still removes it — the filesystem is mutated. -/
theorem delete_mutates_under_dry_run :
    fsC2 "/f2" = .found nodeC2 ∧
    (fileDelete frC2 fsC2 (Options.mk true)).fs "/f2" = .notExist :=
  ⟨rfl, rfl⟩

/-- Claim C2 (amended): Create, Update and Delete never consult the
options bundle — their result is identical for any two options values,
dry-run set or not — and in particular Delete with dry-run set still
removes an existing regular file. -/
theorem mutators_ignore_options (pr : Proc) (fr : FileResource) (fs : Fs)
    (o o2 : Options) (n : FsNode) :
    (fileCreate pr fr fs o = fileCreate pr fr fs o2 ∧
      fileUpdate fr fs o = fileUpdate fr fs o2 ∧
      fileDelete fr fs o = fileDelete fr fs o2) ∧
    (fs fr.path = .found n → n.isDir = false →
      (fileDelete fr fs (Options.mk true)).fs fr.path = .notExist) := by
  refine ⟨⟨rfl, rfl, rfl⟩, fun h hd => ?_⟩
  simp [fileDelete, osRemove, h, hd, removeNode]

def prW2 : Proc := Proc.mk "u" "g" 0o644

/-- Witness for the amended C2 at a concrete existing file. -/
theorem mutators_ignore_options_witness :
    fsC2 frC2.path = .found nodeC2 ∧ nodeC2.isDir = false ∧
    (fileDelete frC2 fsC2 (Options.mk true)).fs frC2.path = .notExist :=
  ⟨rfl, rfl,
    (mutators_ignore_options prW2 frC2 fsC2 (Options.mk true) (Options.mk true)
      nodeC2).2 rfl rfl⟩

/-- Claim C3 (amended): NewFileResource merges the decoded declaration
over the process-derived baseline with mergo's zero-value rule: a field
whose decoded value is non-zero overrides the baseline, and a field
whose decoded value is the zero value — whether absent from the
declaration or explicitly declared as zero — receives the baseline
value (Path = title, Mode = 0644, Want = Present, Owner/Group = the
current process identity). -/
theorem newFileResource_merge_semantics (t : String) (d : FileDecl) (pr : Proc) :
    (newFileResource t d pr).title = t ∧
    (newFileResource t d pr).rtype = "file" ∧
    (newFileResource t d pr).state = .present ∧
    (newFileResource t d pr).path = (if d.path.getD "" = "" then t else d.path.getD "") ∧
    (newFileResource t d pr).mode = (if d.mode.getD 0 = 0 then 0o644 else d.mode.getD 0) ∧
    (newFileResource t d pr).owner =
      (if d.owner.getD "" = "" then pr.user else d.owner.getD "") ∧
    (newFileResource t d pr).group =
      (if d.group.getD "" = "" then pr.group else d.group.getD "") ∧
    (newFileResource t d pr).source = d.source.getD "" := by
  unfold newFileResource mergoMerge hclDecode fileDefaults
  refine ⟨by simp, by simp, by simp, by simp, by simp, by simp, by simp, ?_⟩
  simp only
  split_ifs with hs
  · rw [hs]
  · rfl

/-- Counterexample to C3 as stated: a declaration that explicitly sets
owner to the empty string and mode to zero has both fields silently
overwritten by the baseline values. -/
theorem merge_overwrites_declared_zero_fields :
    (newFileResource "t" (FileDecl.mk none (some 0) (some "") none none)
      (Proc.mk "bob" "staff" 0o644)).owner = "bob" ∧
    (newFileResource "t" (FileDecl.mk none (some 0) (some "") none none)
      (Proc.mk "bob" "staff" 0o644)).mode = 0o644 :=
  ⟨rfl, rfl⟩
